import Mathlib

/-!
Verification of the OralEndoscopeClientPython repository's frame-distribution
and peer-session subsystem.  Each definition below is a shallow embedding of a
function from the Python sources (`MainWindow.py`, `Camera.py`, `RTCSender.py`,
`RenderWidget.py`); the theorems settle the specification claims against them.
Python machine behaviour is modelled explicitly: fallible calls return
`Except` (an `.error` is a raised exception), queues of capacity one are
`Option` values, and numeric aspect arithmetic is carried out over `ℚ`.
-/

namespace OralEndoscope

/-! ## Single-slot queue (`queue.Queue(1)`) and `MainWindow.put_latest`

`MainWindow.__init__` creates `camToRtcQueue = Queue(1)` and
`rtcToCamQueue = Queue(1)`.  A capacity-one queue is modelled as an
`Option α`: `some v` holds one pending item, `none` is empty. -/

/-- Models `Queue.put_nowait` on a capacity-one queue: succeeds exactly when
the slot is empty, otherwise raises `Full` (the `.error` case). -/
def put_nowait {α : Type} (q : Option α) (x : α) : Except Unit (Option α) :=
  match q with
  | none => .ok (some x)
  | some _ => .error ()

/-- Models `Queue.get_nowait` on a capacity-one queue: returns the held item
and leaves the slot empty, or raises `Empty` (the `.error` case). -/
def get_nowait {α : Type} (q : Option α) : Except Unit (α × Option α) :=
  match q with
  | some v => .ok (v, none)
  | none => .error ()

/-- Models the `while True` body of `MainWindow.put_latest`
(`MainWindow.py` lines 378-388), fuelled: try `put_nowait`; on `Full` drop the
stale item with `get_nowait` and loop; if that `get_nowait` raises `Empty`,
break without putting.  In sequential semantics the loop runs at most twice,
so any fuel of at least two computes the loop's result
(`put_latest_loop_fuel`). -/
def put_latest_loop {α : Type} : Nat → Option α → α → Option α
  | 0, q, _ => q
  | n + 1, q, x =>
    match put_nowait q x with
    | .ok q' => q'
    | .error _ =>
      match get_nowait q with
      | .ok (_, q') => put_latest_loop n q' x
      | .error _ => q

/-- Models `MainWindow.put_latest(queue, item)`: the drain-then-put loop with
enough fuel for its sequential execution. -/
def put_latest {α : Type} (q : Option α) (x : α) : Option α :=
  put_latest_loop 2 q x

/-! ## `Camera.read` and the capture loop `MainWindow.readFrameThreadFunction` -/

/-- A raw video frame: dimensions plus a pixel accessor
(row, column, channel ↦ byte value), modelling a `numpy` `ndarray`. -/
structure Frame where
  rows : Nat
  cols : Nat
  chans : Nat
  px : Nat → Nat → Nat → Nat

/-- The camera as observed by one `Camera.read` call: whether
`is_opened()` holds, and what `cv2.VideoCapture.read()` would return
(`some f` when `ret` is true; `none` when `ret` is false). -/
structure Cam where
  opened : Bool
  grab : Option Frame

/-- Models `Camera.read` (`Camera.py` lines 46-52): raises
`RuntimeError("Camera is not opened")` when the camera is closed, raises
`RuntimeError("Failed to read frame")` when `ret` is false, and otherwise
returns the frame.  The `.ok` value carries `Option Frame` because the call
site in `MainWindow.readFrameThreadFunction` annotates the result
`ndarray | None` and tests it against `None`; the theorems show the `.ok none`
case never occurs. -/
def cameraRead (c : Cam) : Except String (Option Frame) :=
  if c.opened then
    match c.grab with
    | some f => .ok (some f)
    | none => .error "Failed to read frame"
  else .error "Camera is not opened"

/-- Outcome of one iteration of the capture loop body in
`MainWindow.readFrameThreadFunction` (`MainWindow.py` lines 198-207):
`crashed e` — an exception from `camera.read()` propagates out of the loop and
terminates the thread; `sleptRetry` — the `frame is None` branch
(`time.sleep(0.001)` then `continue`); `emitted f` — the frame is sent to the
render path (`signalFrame.emit`) and to the outbound queue (`put_latest`). -/
inductive CaptureStep where
  | crashed (e : String)
  | sleptRetry
  | emitted (f : Frame)

/-- Models one iteration of the `while` body of
`MainWindow.readFrameThreadFunction`: the call `self.camera.read()` is not
wrapped in any `try`, so an exception terminates the loop. -/
def captureIteration (c : Cam) : CaptureStep :=
  match cameraRead c with
  | .error e => .crashed e
  | .ok none => .sleptRetry
  | .ok (some f) => .emitted f

/-- An opened camera whose `cv2` read reports failure (`ret` false):
the transient-read-failure input. -/
def failCam : Cam := { opened := true, grab := none }

/-! ## `RTCSender`: session lifecycle (`RTCSender.py`)

The sender object's mutable attributes observed by `open`/`close`/`_run` are
`self.pc` (the peer connection, or `None`) and `self._running`.  The number
of `_run` tasks spawned by `open` is tracked to count concurrently started
sessions, and close operations on the underlying peer-connection object are
counted explicitly. -/

/-- The `RTCSender` attributes touched by `open` and `close`:
`pc` models `self.pc` (`some ()` when a peer connection is held),
`running` models `self._running`, and `startedRuns` counts the `_run`
tasks spawned so far via `asyncio.create_task`. -/
structure SenderState where
  pc : Option Unit
  running : Bool
  startedRuns : Nat

/-- Models `RTCSender.open` (`RTCSender.py` lines 81-83): the body is the
single statement `asyncio.create_task(self._run(...))` — it performs no
already-open check, raises nothing, and unconditionally schedules one more
`_run` session. -/
def senderOpen (s : SenderState) : Except String SenderState :=
  .ok { s with startedRuns := s.startedRuns + 1 }

/-- Models `RTCSender.close` (`RTCSender.py` lines 85-89):
`self._running = False`; then only if `self.pc` is set, schedule
`self.pc.close()` (counted in the second component) and clear `self.pc`.
It raises nothing. -/
def senderClose (s : SenderState) : Except String (SenderState × Nat) :=
  .ok ({ s with running := false, pc := none },
       match s.pc with
       | some _ => 1
       | none => 0)

/-- The answer-wait step of `RTCSender._run`: either `asyncio.timeout(25)`
expires before a message arrives, or one MQTT message payload is received. -/
inductive AnswerEvent where
  | timeout
  | payload (p : String)

/-- Environment of one `_run` execution (no interleaved `close`): what the
answer wait yields, and whether `json.loads` plus `setRemoteDescription` on a
received payload succeed (`.error` models a raised exception, e.g. a parse
error, caught by the `except Exception` block). -/
structure RunEnv where
  answer : AnswerEvent
  parseApply : String → Except String Unit

/-- How the `try` body of `RTCSender._run` terminates:
`timedOut` — the 25-second answer wait expired (`logger.error`, `return`);
`noAnswer` — a falsy payload left `answer_json_str` empty (`return`);
`excCaught` — an exception reached the `except Exception` block;
`finished` — the keep-alive loop exited (external stop or terminal peer
state). -/
inductive RunOutcome where
  | timedOut
  | noAnswer
  | excCaught (e : String)
  | finished

/-- Observable result of one `RTCSender._run` execution: how the body ended,
the final `self._running` and `self.pc`, how many times the underlying peer
connection's `close()` ran during the run, and how many times the signaling
exchange was automatically restarted. -/
structure RunResult where
  outcome : RunOutcome
  running : Bool
  pc : Option Unit
  pcCloses : Nat
  retries : Nat

/-- Models the `finally` block of `RTCSender._run` (lines 190-195):
`self._running = False`; if `self.pc` is set, close it once and clear it.
Input is `self.pc` at entry and the close count so far; output is the final
`self.pc` and close count. -/
def rtcRunFinally (pc : Option Unit) (closes : Nat) : Option Unit × Nat :=
  match pc with
  | some _ => (none, closes + 1)
  | none => (none, closes)

/-- Models `RTCSender._run` (lines 115-195) with no interleaved `close()`:
set `_running`, create the peer connection (`self.pc` set), add the
25 fps camera track and data channel, publish the offer, then wait for the
answer with a 25-second timeout; a timeout or empty answer returns, a parse
or apply failure is caught, otherwise the keep-alive loop runs until stopped.
The `finally` block always executes and performs the sole teardown.  No
branch re-runs the signaling exchange, so `retries` is 0. -/
def rtcRun (env : RunEnv) : RunResult :=
  let body : RunOutcome :=
    match env.answer with
    | .timeout => .timedOut
    | .payload p =>
      if p.isEmpty then .noAnswer
      else
        match env.parseApply p with
        | .error e => .excCaught e
        | .ok _ => .finished
  let fin := rtcRunFinally (some ()) 0
  { outcome := body, running := false, pc := fin.1, pcCloses := fin.2,
    retries := 0 }

/-- A sender with an active session: `_run` has started (`self._running`
true, one `_run` task spawned, peer connection held). -/
def activeSender : SenderState :=
  { pc := some (), running := true, startedRuns := 1 }

/-! ## `CameraTrack.recv` (`RTCSender.py` lines 47-69)

`CameraTrack.__init__(read_func, fps)` stores `frame_interval = 1.0 / fps`.
`recv` retries the non-blocking accessor up to
`int(frame_interval * 1000 / 5)` times (sleeping 5 ms between attempts) and
substitutes a fixed black 480x640x3 frame when every attempt yields `None`
(the `for`/`else` clause). -/

/-- The fallback frame `np.zeros((480, 640, 3), dtype=np.uint8)` substituted
by `CameraTrack.recv` when no frame is available. -/
def blackFrame : Frame :=
  { rows := 480, cols := 640, chans := 3, px := fun _ _ _ => 0 }

/-- The retry budget `int(self.frame_interval * 1000 / 5)` of
`CameraTrack.recv`, with `frame_interval = 1.0 / fps`; over the integers this
is `200 / fps` truncated, which agrees with the Python float evaluation at
the `fps = 25` used by `RTCSender._run` (where it is exactly 8). -/
def recvBudget (fps : Nat) : Nat := 200 / fps

/-- Models the retry `for` loop of `CameraTrack.recv`: `reads k` is what the
`k`-th call of `read_func` returns; the loop breaks at the first available
frame and yields `none` when the budget is exhausted. -/
def recvPoll (reads : Nat → Option Frame) : Nat → Nat → Option Frame
  | _, 0 => none
  | k, n + 1 =>
    match reads k with
    | some f => some f
    | none => recvPoll reads (k + 1) n

/-- Models `CameraTrack.recv` for a track constructed with the given `fps`:
the first frame obtained within the retry budget, else the black fallback
frame (timestamping via `av.VideoFrame` is external and not modelled). -/
def cameraTrackRecv (fps : Nat) (reads : Nat → Option Frame) : Frame :=
  match recvPoll reads 0 (recvBudget fps) with
  | some f => f
  | none => blackFrame

/-- The target cadence `RTCSender._run` passes to the track adapter:
`CameraTrack(readCameraFunc, fps=25)` (`RTCSender.py` line 123). -/
def rtcRunTrackFps : Nat := 25

/-! ## Annotation decoding and overlay drawing (`MainWindow.onFrameArrived`,
`MainWindow.py` lines 211-315)

Python values arriving from `json.loads` are modelled by `JVal`; the
per-detection branch logic of the drawing loop is embedded exactly,
abstracting only the external `cv2` drawing calls into a `DetDraw` record of
the commands issued for one detection. -/

/-- A decoded Python/JSON value: `jnum` carries a non-integer JSON number as
an exact rational. -/
inductive JVal where
  | jnull
  | jbool (b : Bool)
  | jint (n : Int)
  | jnum (q : ℚ)
  | jstr (s : String)
  | jlist (xs : List JVal)
  | jobj (fields : List (String × JVal))

/-- Models `dict.get(key)` on a decoded JSON object (first binding wins;
decoded JSON objects have unique keys). -/
def jGet (fields : List (String × JVal)) (k : String) : Option JVal :=
  match fields with
  | [] => none
  | (k', v) :: rest => if k' = k then some v else jGet rest k

/-- Parses an optionally signed run of decimal digits, accumulator form. -/
def digitsAcc : List Char → Nat → Option Nat
  | [], acc => some acc
  | c :: cs, acc =>
    if c.isDigit then digitsAcc cs (acc * 10 + (c.toNat - 48)) else none

/-- Models the Python builtin `int` applied to a `str`: an optional sign
followed by a non-empty digit run parses; anything else raises `ValueError`
(surrounding whitespace and digit-group underscores, which Python also
accepts, do not occur in this data path). -/
def pyStrToInt (s : String) : Option Int :=
  match s.data with
  | [] => none
  | '-' :: cs =>
    match cs with
    | [] => none
    | _ => (digitsAcc cs 0).map fun n => -(n : Int)
  | '+' :: cs =>
    match cs with
    | [] => none
    | _ => (digitsAcc cs 0).map fun n => (n : Int)
  | cs => (digitsAcc cs 0).map fun n => (n : Int)

/-- Models the Python builtin `int(x)` as used by `map(int, bbox)`: integers
pass through, floats truncate toward zero, booleans map to 0/1, integer
literal strings parse, and every other value raises (`ValueError` or
`TypeError`, both caught by the same handler). -/
def pyInt : JVal → Except Unit Int
  | .jint n => .ok n
  | .jnum q => .ok (if q < 0 then ⌈q⌉ else ⌊q⌋)
  | .jbool b => .ok (if b then 1 else 0)
  | .jstr s =>
    match pyStrToInt s with
    | some n => .ok n
    | none => .error ()
  | _ => .error ()

/-- Whether a `pyInt` conversion succeeds. -/
def okB {ε α : Type} : Except ε α → Bool
  | .ok _ => true
  | .error _ => false

/-- Models `str.lower()`. -/
def pyLower (s : String) : String := String.mk (s.data.map Char.toLower)

/-- Character-list prefix test used by the substring model. -/
def leadMatch : List Char → List Char → Bool
  | [], _ => true
  | _ :: _, [] => false
  | a :: as, b :: bs => a == b && leadMatch as bs

/-- Character-list substring test. -/
def chContains : List Char → List Char → Bool
  | [], needle => needle.isEmpty
  | c :: t, needle => leadMatch needle (c :: t) || chContains t needle

/-- Models the Python membership test `needle in hay` on strings. -/
def pyInStr (needle hay : String) : Bool := chContains hay.data needle.data

/-- The BGR colour `(0, 0, 255)` used for the distinguished "cavity"
category. -/
def bgrRed : Int × Int × Int := (0, 0, 255)

/-- The BGR colour `(0, 255, 0)` used for every other category. -/
def bgrGreen : Int × Int × Int := (0, 255, 0)

/-- The drawing commands the loop body of `onFrameArrived` issues for one
well-formed detection: exactly one `cv2.rectangle` box (with its colour), one
label (`cv2.putText` of the raw class name and confidence over a background
rectangle, in `labelColor`), and an optional `ID:` text when `object_id` is
present. -/
structure DetDraw where
  box : Int × Int × Int × Int
  color : Int × Int × Int
  labelName : String
  labelConfidence : JVal
  labelColor : Int × Int × Int
  idLabel : Option JVal

/-- Outcome of the loop body for one detection entry that does not raise:
`warn` — a `logger.warning` plus `continue` (bad bbox shape, or a coordinate
`int()` conversion failing); `draw` — the drawing commands issued. -/
inductive DetStep where
  | warn
  | draw (d : DetDraw)

/-- Extracts `det.get("bbox")` when it passes
`isinstance(bbox, list) and len(bbox) == 4`. -/
def getBbox4 (fields : List (String × JVal)) : Option (JVal × JVal × JVal × JVal) :=
  match jGet fields "bbox" with
  | some (.jlist [a, b, c, d]) => some (a, b, c, d)
  | _ => none

/-- The tail of the loop body once the four coordinates converted: reads
`class_name` (default "unknown", lowered for the colour rule — a non-string
value makes `.lower()` raise `AttributeError`), `confidence` (default 0.0)
and `object_id`, and issues the drawing commands. -/
def mkDraw (fields : List (String × JVal)) (x1 y1 x2 y2 : Int) :
    Except String DetStep :=
  match (jGet fields "class_name").getD (.jstr "unknown") with
  | .jstr cn =>
    let col := if pyInStr "cavity" (pyLower cn) then bgrRed else bgrGreen
    .ok (.draw
      { box := (x1, y1, x2, y2), color := col, labelName := cn,
        labelConfidence := (jGet fields "confidence").getD (.jnum 0),
        labelColor := col, idLabel := jGet fields "object_id" })
  | _ => .error "AttributeError: lower"

/-- Models the loop body of `onFrameArrived` for one detection entry
(`MainWindow.py` lines 235-297).  A non-dict entry raises `AttributeError` at
`det.get` (an `.error`, reaching the outer `except Exception`); a bbox that
is not a 4-element list, or one with a non-convertible coordinate, logs a
warning and continues; otherwise the entry is drawn. -/
def processDet (det : JVal) : Except String DetStep :=
  match det with
  | .jobj fields =>
    match getBbox4 fields with
    | none => .ok .warn
    | some (a, b, c, d) =>
      match pyInt a, pyInt b, pyInt c, pyInt d with
      | .ok x1, .ok y1, .ok x2, .ok y2 => mkDraw fields x1 y1 x2 y2
      | _, _, _, _ => .ok .warn
  | _ => .error "AttributeError: get"

/-- Result of running the drawing loop over a batch: `done` — every entry was
handled (drawn or warned); `aborted` — an entry raised, the exception reached
the outer `except Exception` (logged as an error), and the draws already
issued remain on the frame. -/
inductive BatchResult where
  | done (draws : List DetDraw) (warns : Nat)
  | aborted (draws : List DetDraw) (warns : Nat) (e : String)

/-- Models the `for det in detections` loop of `onFrameArrived`. -/
def processBatch : List JVal → BatchResult
  | [] => .done [] 0
  | det :: rest =>
    match processDet det with
    | .error e => .aborted [] 0 e
    | .ok .warn =>
      match processBatch rest with
      | .done ds w => .done ds (w + 1)
      | .aborted ds w e => .aborted ds (w + 1) e
    | .ok (.draw d) =>
      match processBatch rest with
      | .done ds w => .done (d :: ds) w
      | .aborted ds w e => .aborted (d :: ds) w e

/-- Models Python iteration over the `detections` value: lists iterate their
elements, strings iterate their one-character substrings, dicts iterate their
keys, and every other value raises `TypeError` in the `for` statement. -/
def pyIterate : JVal → Except String (List JVal)
  | .jlist xs => .ok xs
  | .jstr s => .ok (s.data.map fun c => .jstr (String.mk [c]))
  | .jobj fs => .ok (fs.map fun p => .jstr p.1)
  | _ => .error "TypeError: not iterable"

/-- The inbound data-channel payload as observed by `onFrameArrived`:
`empty` is the Python truthiness test `if posStr:` (an empty `str`/`bytes`
is falsy and skips decoding), and `parsed` is the result of `json.loads`
(`.error` models `json.JSONDecodeError`). -/
structure PyMsg where
  empty : Bool
  parsed : Except String JVal

/-- The observable effects of one `onFrameArrived` render tick: the drawing
commands issued onto the copied frame, how many `logger.warning` lines were
emitted, whether the outer `except Exception` handler logged an error, and
whether the (possibly annotated) frame was still handed to
`camWidget.setTextureData`. -/
structure TickResult where
  draws : List DetDraw
  warns : Nat
  errorLogged : Bool
  framePushed : Bool

/-- Models `MainWindow.onFrameArrived` (lines 211-315): a non-blocking poll
of `rtcToCamQueue` (`none` models the `Empty` branch), truthiness test, JSON
decode, envelope field access `posJson.get("detections", [])`, the drawing
loop, and the final unconditional `setTextureData` call. -/
def onFrameArrived (pending : Option PyMsg) : TickResult :=
  match pending with
  | none => { draws := [], warns := 0, errorLogged := false, framePushed := true }
  | some m =>
    if m.empty then
      { draws := [], warns := 0, errorLogged := false, framePushed := true }
    else
      match m.parsed with
      | .error _ =>
        { draws := [], warns := 1, errorLogged := false, framePushed := true }
      | .ok (.jobj fields) =>
        (match pyIterate ((jGet fields "detections").getD (.jlist [])) with
         | .ok dets =>
           (match processBatch dets with
            | .done ds w =>
              { draws := ds, warns := w, errorLogged := false, framePushed := true }
            | .aborted ds w _ =>
              { draws := ds, warns := w, errorLogged := true, framePushed := true })
         | .error _ =>
           { draws := [], warns := 0, errorLogged := true, framePushed := true })
      | .ok _ =>
        { draws := [], warns := 0, errorLogged := true, framePushed := true }

/-- Whether the loop body accepts the entry's bounding box: a 4-element list
each of whose entries `int()` converts. -/
def bboxWellFormed (det : JVal) : Bool :=
  match det with
  | .jobj fields =>
    match getBbox4 fields with
    | some (a, b, c, d) =>
      okB (pyInt a) && okB (pyInt b) && okB (pyInt c) && okB (pyInt d)
    | none => false
  | _ => false

/-- Whether the loop body can process the entry without raising: it is a dict
and, when its bbox is accepted, its `class_name` (if present) is a string. -/
def detSafe (det : JVal) : Bool :=
  match det with
  | .jobj fields =>
    !(bboxWellFormed det) ||
      (match jGet fields "class_name" with
       | some (.jstr _) => true
       | none => true
       | some _ => false)
  | _ => false

/-- The drawing commands an entry yields when it is drawn, `none` when it is
skipped or raises; read off `processDet`. -/
def drawOfOpt (det : JVal) : Option DetDraw :=
  match processDet det with
  | .ok (.draw dd) => some dd
  | _ => none

/-- The malformed detection entry `\x7b"bbox":"bad"\x7d`. -/
def badDet : JVal := .jobj [("bbox", .jstr "bad")]

/-- The well-formed detection entry `\x7b"bbox":[10,10,50,50],
"class_name":"Cavity","confidence":0.91\x7d`. -/
def cavityDet : JVal :=
  .jobj [("bbox", .jlist [.jint 10, .jint 10, .jint 50, .jint 50]),
         ("class_name", .jstr "Cavity"),
         ("confidence", .jnum (91 / 100))]

/-- The decoded payload of the spec's malformed-bbox example
`\x7b"detections":[\x7b"bbox":"bad"\x7d]\x7d`. -/
def badBboxMsg : PyMsg :=
  { empty := false, parsed := .ok (.jobj [("detections", .jlist [badDet])]) }

/-- The decoded payload of the spec's distinguished-category example
`\x7b"detections":[\x7b"bbox":[10,10,50,50],"class_name":"Cavity",
"confidence":0.91\x7d]\x7d`. -/
def cavityMsg : PyMsg :=
  { empty := false, parsed := .ok (.jobj [("detections", .jlist [cavityDet])]) }

/-- The drawing commands `onFrameArrived` issues for `cavityDet`: one box at
(10, 10)-(50, 50) in the distinguished red colour, with the matching label. -/
def cavityDraw : DetDraw :=
  { box := (10, 10, 50, 50), color := bgrRed, labelName := "Cavity",
    labelConfidence := .jnum (91 / 100), labelColor := bgrRed,
    idLabel := none }

/-! ## `RenderWidget` (`RenderWidget.py`)

The renderer state is the widget's Python attributes relevant to texture
upload and aspect scaling; GPU texture objects are modelled by their
allocated size and storage format, and the window size `self.width()` /
`self.height()` is carried in the state. -/

/-- The `PixelFormat` enum of `RenderWidget.py`. -/
inductive PixelFormat where
  | YUV420P
  | RGB24
  | BGR24
deriving DecidableEq

/-- Storage format of an allocated `QOpenGLTexture`: `RGB8_UNorm` for packed
frames, `R8_UNorm` for single planes. -/
inductive TexStorage where
  | rgb8
  | r8
deriving DecidableEq

/-- An allocated GPU texture: its size and storage format (the uploaded bytes
live on the GPU and are not modelled). -/
structure Texture where
  texW : Int
  texH : Int
  storage : TexStorage
deriving DecidableEq

/-- The `RenderWidget` attributes driving upload and scaling, plus the
widget's current window size (`self.width()`, `self.height()`). -/
structure RWState where
  m_width : Int
  m_height : Int
  m_scaleX : ℚ
  m_scaleY : ℚ
  m_currentFormat : Option PixelFormat
  m_textureY : Option Texture
  m_textureU : Option Texture
  m_textureV : Option Texture
  m_yuvPlanes : Option (List Int × List Int × List Int)
deriving DecidableEq

/-- The window size of the widget, read by `updateAspectRatio`. -/
structure WinSize where
  winW : Int
  winH : Int
deriving DecidableEq

/-- Models `RenderWidget.updateAspectRatio` (`RenderWidget.py` lines 88-99):
non-positive source dimensions reset both scales to 1; otherwise the window
and video aspects are compared and the overflowing axis is clamped while the
other stays at full scale.  Python float division is carried out exactly
over `ℚ`, and the locals `windowAspect` and `videoAspect` are inlined (a
zero window height would raise `ZeroDivisionError` in Python and is excluded
by the claims' hypotheses). -/
def updateAspectScale (win : WinSize) (s : RWState) : RWState :=
  if s.m_width ≤ 0 ∨ s.m_height ≤ 0 then
    { s with m_scaleX := 1, m_scaleY := 1 }
  else if (win.winW : ℚ) / (win.winH : ℚ) >
      (s.m_width : ℚ) / (s.m_height : ℚ) then
    { s with
      m_scaleX := ((s.m_width : ℚ) / (s.m_height : ℚ)) /
        ((win.winW : ℚ) / (win.winH : ℚ)),
      m_scaleY := 1 }
  else
    { s with
      m_scaleX := 1,
      m_scaleY := ((win.winW : ℚ) / (win.winH : ℚ)) /
        ((s.m_width : ℚ) / (s.m_height : ℚ)) }

/-- The buffer argument of `setTextureData`: a single `ndarray` described by
its shape, or a Python list of plane `ndarray`s described by their shapes. -/
inductive Buf where
  | nd (shape : List Int)
  | planes (shapes : List (List Int))

/-- Models `RenderWidget.setTextureData` (`RenderWidget.py` lines 101-166).
Non-positive dimensions return immediately with the state untouched.
Otherwise the dimensions, format and aspect scales are updated, the previous
textures are destroyed and the plane cache cleared, and the branch for the
requested format validates the buffer (a failed check raises `ValueError`,
modelled as `.error`; the GL upload calls are external) and allocates the new
texture(s). -/
def setTextureData (win : WinSize) (s : RWState) (buffer : Buf)
    (width height : Int) (fmt : PixelFormat) : Except String RWState :=
  if width ≤ 0 ∨ height ≤ 0 then .ok s
  else
    let s1 := updateAspectScale win
      { s with m_width := width, m_height := height, m_currentFormat := some fmt }
    let s2 := { s1 with m_textureY := none, m_textureU := none,
                        m_textureV := none, m_yuvPlanes := none }
    match fmt with
    | .RGB24 | .BGR24 =>
      match buffer with
      | .nd [_, _, c] =>
        if c = 3 then
          .ok { s2 with m_textureY := some ⟨width, height, .rgb8⟩ }
        else .error "RGB/BGR must be an (h, w, 3) ndarray"
      | _ => .error "RGB/BGR must be an (h, w, 3) ndarray"
    | .YUV420P =>
      match buffer with
      | .planes [y, u, v] =>
        if y = [height, width] ∧ u = [height / 2, width / 2] ∧
            v = [height / 2, width / 2] then
          .ok { s2 with
            m_textureY := some ⟨width, height, .r8⟩,
            m_textureU := some ⟨width / 2, height / 2, .r8⟩,
            m_textureV := some ⟨width / 2, height / 2, .r8⟩,
            m_yuvPlanes := some (y, u, v) }
        else .error "YUV420P plane sizes do not match"
      | _ => .error "YUV420P requires [Y, U, V] planes"

/-- The renderer state established by `RenderWidget.__init__`
(`RenderWidget.py` lines 59-73). -/
def rwInit : RWState :=
  { m_width := 0, m_height := 0, m_scaleX := 1, m_scaleY := 1,
    m_currentFormat := none, m_textureY := none, m_textureU := none,
    m_textureV := none, m_yuvPlanes := none }

/-- A window twice as wide as the source aspect ratio (1280x480 against a
640x480 source). -/
def aspectWin : WinSize := ⟨1280, 480⟩

/-- A renderer holding a 640x480 source frame. -/
def aspectState : RWState := { rwInit with m_width := 640, m_height := 480 }

/-! ## Claim theorems -/

theorem put_latest_loop_fuel {α : Type} (n : Nat) (q : Option α) (x : α) :
    put_latest_loop (n + 2) q x = some x := by
  cases q <;> simp [put_latest_loop, put_nowait, get_nowait]

theorem put_latest_eq {α : Type} (q : Option α) (x : α) :
    put_latest q x = some x := by
  cases q <;> rfl

theorem foldl_put_latest {α : Type} (q : Option α) (l : List α) (h : l ≠ []) :
    l.foldl put_latest q = some (l.getLast h) := by
  induction l generalizing q with
  | nil => exact absurd rfl h
  | cons a t ih =>
    cases t with
    | nil => simp [put_latest_eq]
    | cons b t' =>
      rw [List.foldl_cons, ih (put_latest q a) (List.cons_ne_nil b t')]
      simp [List.getLast_cons]

theorem recvPoll_none (reads : Nat → Option Frame) :
    ∀ (n k : Nat), (∀ i, i < k + n → reads i = none) →
      recvPoll reads k n = none := by
  intro n
  induction n with
  | zero => intro k _; rfl
  | succ m ih =>
    intro k h
    have hk : reads k = none := h k (by omega)
    simp only [recvPoll, hk]
    exact ih (k + 1) fun i hi => h i (by omega)

/-- C3: for every non-empty sequence of `put_latest` calls on an arbitrary
single-slot channel with no interleaved `tryGet`, a subsequent `get_nowait`
observes exactly the last value put with the slot left empty (so every
earlier unread value was discarded), and `put_latest` is total — it never
blocks and never fails, replacing any currently held item. -/
theorem C3_put_latest_last_wins {α : Type} (q0 : Option α) (l : List α)
    (h : l ≠ []) :
    get_nowait (l.foldl put_latest q0) = .ok (l.getLast h, none) ∧
    ∀ (q : Option α) (x : α), put_latest q x = some x := by
  refine ⟨?_, put_latest_eq⟩
  rw [foldl_put_latest q0 l h]
  rfl

/-- C3 witness: three puts of 1, 2, 3 onto a channel initially holding 7;
`get_nowait` then observes exactly 3. -/
theorem C3_witness :
    ([1, 2, 3] : List Nat) ≠ [] ∧
    get_nowait (([1, 2, 3] : List Nat).foldl put_latest (some 7)) =
      .ok (3, none) := by
  refine ⟨by decide, ?_⟩
  exact (C3_put_latest_last_wins (some 7) [1, 2, 3] (by decide)).1

/-- C2: the claim that a failed read makes the capture loop sleep and retry is
contradicted by the code.  On an opened camera whose read fails (`ret` false),
`Camera.read` raises `RuntimeError("Failed to read frame")`; the exception is
uncaught in `readFrameThreadFunction`, so the iteration crashes the thread
instead of retrying.  Moreover the loop's sleep-and-retry branch
(`if frame is None`) is unreachable: `cameraRead` never returns `.ok none`. -/
theorem C2_failed_read_crashes_capture_loop :
    captureIteration failCam = .crashed "Failed to read frame" ∧
    ∀ c : Cam, cameraRead c ≠ .ok none := by
  refine ⟨rfl, ?_⟩
  intro c hc
  rcases c with ⟨o, g⟩
  cases o <;> cases g <;> simp [cameraRead] at hc

/-- C1 counterexample: on a sender with an active session (`open()` called,
`close()` not), a further `open()` does not fail with an "already open" error
— it succeeds and schedules a second `_run` session (`startedRuns` becomes
2), because `RTCSender.open` contains no already-open check. -/
theorem C1_counterexample :
    senderOpen activeSender =
      .ok { pc := some (), running := true, startedRuns := 2 } ∧
    ∀ e : String, senderOpen activeSender ≠ .error e := by
  exact ⟨rfl, fun e h => by simp [senderOpen, activeSender] at h⟩

/-- C1 amended: calling `open()` while a session is already active does not
fail; `open()` performs no already-open check and unconditionally schedules a
further concurrent `_run` session. -/
theorem C1_open_never_rejects (s : SenderState) (h : s.running = true) :
    senderOpen s = .ok { s with startedRuns := s.startedRuns + 1 } :=
  rfl

/-- C1 witness: the amended statement applied to the concrete active
sender. -/
theorem C1_witness :
    activeSender.running = true ∧
    senderOpen activeSender =
      .ok { activeSender with startedRuns := activeSender.startedRuns + 1 } :=
  ⟨rfl, C1_open_never_rejects activeSender rfl⟩

/-- C4: a `_run` execution whose answer wait times out terminates in the
timed-out failure outcome, performs no automatic retry of the signaling
exchange, executes the underlying peer connection's `close()` exactly once
(in the `finally` block), and clears the `self.pc` reference. -/
theorem C4_timeout_fails_once (env : RunEnv) (h : env.answer = .timeout) :
    rtcRun env =
      { outcome := .timedOut, running := false, pc := none, pcCloses := 1,
        retries := 0 } := by
  simp [rtcRun, rtcRunFinally, h]

/-- C4 witness: the timeout environment with a trivial parse step. -/
theorem C4_witness :
    (RunEnv.mk .timeout fun _ => .ok ()).answer = .timeout ∧
    rtcRun (RunEnv.mk .timeout fun _ => .ok ()) =
      { outcome := .timedOut, running := false, pc := none, pcCloses := 1,
        retries := 0 } :=
  ⟨rfl, C4_timeout_fails_once (RunEnv.mk .timeout fun _ => .ok ()) rfl⟩

/-- C5: from any sender state, two successive `close()` calls both return
without raising, together execute the underlying peer connection's `close()`
at most once, and after a `close()` the `finally` teardown of a still-running
`_run` performs zero further closes (so a `close()` racing the signaling
exchange cannot double-free the peer connection). -/
theorem C5_close_idempotent_no_double_free (s : SenderState) :
    ∃ (s1 s2 : SenderState) (c1 c2 : Nat),
      senderClose s = .ok (s1, c1) ∧
      senderClose s1 = .ok (s2, c2) ∧
      c1 + c2 ≤ 1 ∧
      rtcRunFinally s1.pc 0 = (none, 0) := by
  refine ⟨_, _, _, _, rfl, rfl, ?_, rfl⟩
  cases h : s.pc <;> simp [h]

/-- C8: on a tick where the non-blocking accessor yields no frame at every
attempt within the retry budget, `CameraTrack.recv` substitutes the
fixed-size blank frame — 480x640, 3 channels, all pixel bytes zero — instead
of blocking, and the cadence `RTCSender._run` passes to the adapter is 25
frames per second. -/
theorem C8_starved_recv_black_frame (reads : Nat → Option Frame)
    (h : ∀ k, k < recvBudget rtcRunTrackFps → reads k = none) :
    cameraTrackRecv rtcRunTrackFps reads = blackFrame ∧
    rtcRunTrackFps = 25 ∧
    blackFrame.rows = 480 ∧ blackFrame.cols = 640 ∧ blackFrame.chans = 3 ∧
    ∀ i j c, blackFrame.px i j c = 0 := by
  refine ⟨?_, rfl, rfl, rfl, rfl, fun _ _ _ => rfl⟩
  unfold cameraTrackRecv
  rw [recvPoll_none reads (recvBudget rtcRunTrackFps) 0
    (fun i hi => h i (by omega))]

/-- C8 witness: an accessor that always yields nothing produces exactly the
black fallback frame at the 25 fps budget. -/
theorem C8_witness :
    (∀ k, k < recvBudget rtcRunTrackFps → (fun _ : Nat => (none : Option Frame)) k = none) ∧
    cameraTrackRecv rtcRunTrackFps (fun _ => none) = blackFrame :=
  ⟨fun _ _ => rfl,
   (C8_starved_recv_black_frame (fun _ => none) fun _ _ => rfl).1⟩

theorem okB_ok {ε α : Type} {e : Except ε α} (h : okB e = true) :
    ∃ x, e = .ok x := by
  cases e with
  | ok x => exact ⟨x, rfl⟩
  | error _ => simp [okB] at h

theorem bboxWellFormed_none (fields : List (String × JVal))
    (hg : getBbox4 fields = none) :
    bboxWellFormed (.jobj fields) = false := by
  simp [bboxWellFormed, hg]

theorem bboxWellFormed_some (fields : List (String × JVal))
    (a b c d : JVal) (hg : getBbox4 fields = some (a, b, c, d)) :
    bboxWellFormed (.jobj fields) =
      (okB (pyInt a) && okB (pyInt b) && okB (pyInt c) && okB (pyInt d)) := by
  simp [bboxWellFormed, hg]

theorem processDet_nobbox (fields : List (String × JVal))
    (hg : getBbox4 fields = none) :
    processDet (.jobj fields) = .ok .warn := by
  simp [processDet, hg]

theorem processDet_wf (fields : List (String × JVal)) (a b c d : JVal)
    (hg : getBbox4 fields = some (a, b, c, d)) (x1 y1 x2 y2 : Int)
    (ha : pyInt a = .ok x1) (hb : pyInt b = .ok y1)
    (hc : pyInt c = .ok x2) (hd : pyInt d = .ok y2) :
    processDet (.jobj fields) = mkDraw fields x1 y1 x2 y2 := by
  simp [processDet, hg, ha, hb, hc, hd]

theorem processDet_warn (fields : List (String × JVal)) (a b c d : JVal)
    (hg : getBbox4 fields = some (a, b, c, d))
    (hbad : (okB (pyInt a) && okB (pyInt b) && okB (pyInt c) && okB (pyInt d))
      = false) :
    processDet (.jobj fields) = .ok .warn := by
  simp only [processDet, hg]
  cases ha : pyInt a <;> cases hb : pyInt b <;> cases hc : pyInt c <;>
    cases hd : pyInt d <;> simp [ha, hb, hc, hd, okB] at hbad ⊢

theorem mkDraw_str (fields : List (String × JVal)) (x1 y1 x2 y2 : Int)
    (cn : String) (hcn : jGet fields "class_name" = some (.jstr cn)) :
    mkDraw fields x1 y1 x2 y2 = .ok (.draw
      { box := (x1, y1, x2, y2),
        color := if pyInStr "cavity" (pyLower cn) then bgrRed else bgrGreen,
        labelName := cn,
        labelConfidence := (jGet fields "confidence").getD (.jnum 0),
        labelColor := if pyInStr "cavity" (pyLower cn) then bgrRed else bgrGreen,
        idLabel := jGet fields "object_id" }) := by
  simp [mkDraw, hcn]

theorem mkDraw_absent (fields : List (String × JVal)) (x1 y1 x2 y2 : Int)
    (hcn : jGet fields "class_name" = none) :
    mkDraw fields x1 y1 x2 y2 = .ok (.draw
      { box := (x1, y1, x2, y2),
        color := if pyInStr "cavity" (pyLower "unknown") then bgrRed else bgrGreen,
        labelName := "unknown",
        labelConfidence := (jGet fields "confidence").getD (.jnum 0),
        labelColor := if pyInStr "cavity" (pyLower "unknown") then bgrRed
          else bgrGreen,
        idLabel := jGet fields "object_id" }) := by
  simp [mkDraw, hcn]

theorem detSafe_cases (det : JVal) (hs : detSafe det = true) :
    (bboxWellFormed det = true ∧ ∃ dd, processDet det = .ok (.draw dd)) ∨
    (bboxWellFormed det = false ∧ processDet det = .ok .warn) := by
  cases det with
  | jobj fields =>
    by_cases hwf : bboxWellFormed (.jobj fields) = true
    · left
      refine ⟨hwf, ?_⟩
      cases hg : getBbox4 fields with
      | none => rw [bboxWellFormed_none fields hg] at hwf; exact absurd hwf (by simp)
      | some t =>
        obtain ⟨a, b, c, d⟩ := t
        have hoks := hwf
        rw [bboxWellFormed_some fields a b c d hg] at hoks
        simp only [Bool.and_eq_true] at hoks
        obtain ⟨⟨⟨ha, hb⟩, hc⟩, hd⟩ := hoks
        obtain ⟨x1, ha'⟩ := okB_ok ha
        obtain ⟨y1, hb'⟩ := okB_ok hb
        obtain ⟨x2, hc'⟩ := okB_ok hc
        obtain ⟨y2, hd'⟩ := okB_ok hd
        rw [processDet_wf fields a b c d hg x1 y1 x2 y2 ha' hb' hc' hd']
        simp only [detSafe, hwf, Bool.not_true, Bool.false_or] at hs
        cases hcn : jGet fields "class_name" with
        | none => exact ⟨_, mkDraw_absent fields x1 y1 x2 y2 hcn⟩
        | some v =>
          cases v with
          | jstr cn => exact ⟨_, mkDraw_str fields x1 y1 x2 y2 cn hcn⟩
          | jnull => rw [hcn] at hs; simp at hs
          | jbool b' => rw [hcn] at hs; simp at hs
          | jint n => rw [hcn] at hs; simp at hs
          | jnum q => rw [hcn] at hs; simp at hs
          | jlist xs => rw [hcn] at hs; simp at hs
          | jobj fs => rw [hcn] at hs; simp at hs
    · right
      have hwf' : bboxWellFormed (.jobj fields) = false := by
        simpa using hwf
      refine ⟨hwf', ?_⟩
      cases hg : getBbox4 fields with
      | none => exact processDet_nobbox fields hg
      | some t =>
        obtain ⟨a, b, c, d⟩ := t
        refine processDet_warn fields a b c d hg ?_
        rw [bboxWellFormed_some fields a b c d hg] at hwf'
        exact hwf'
  | jnull => simp [detSafe] at hs
  | jbool b => simp [detSafe] at hs
  | jint n => simp [detSafe] at hs
  | jnum q => simp [detSafe] at hs
  | jstr s => simp [detSafe] at hs
  | jlist xs => simp [detSafe] at hs

theorem processBatch_safe (dets : List JVal)
    (h : ∀ d ∈ dets, detSafe d = true) :
    processBatch dets =
      .done (dets.filterMap drawOfOpt)
        (dets.countP fun d => !(bboxWellFormed d)) ∧
    (dets.filterMap drawOfOpt).length =
      dets.countP (fun d => bboxWellFormed d) := by
  induction dets with
  | nil => exact ⟨rfl, rfl⟩
  | cons d rest ih =>
    obtain ⟨hbatch, hlen⟩ := ih fun x hx => h x (List.mem_cons_of_mem d hx)
    have hd := h d (List.mem_cons_self d rest)
    rcases detSafe_cases d hd with ⟨hwf, dd, hpd⟩ | ⟨hwf, hpd⟩
    · have hopt : drawOfOpt d = some dd := by simp [drawOfOpt, hpd]
      constructor
      · simp [processBatch, hpd, hbatch, List.countP_cons, hwf,
          List.filterMap_cons, hopt]
      · simp [List.countP_cons, hwf, List.filterMap_cons, hopt, hlen]
    · have hopt : drawOfOpt d = none := by simp [drawOfOpt, hpd]
      constructor
      · simp [processBatch, hpd, hbatch, List.countP_cons, hwf,
          List.filterMap_cons, hopt]
      · simp [List.countP_cons, hwf, List.filterMap_cons, hopt, hlen]

/-- C6: in any batch of detection entries that raise no exception (each entry
a dict whose `class_name`, when its bbox passes, is a string), every entry
with a malformed bbox is skipped with exactly one logged warning while every
well-formed entry is still drawn, in order; and the concrete payload
`\x7b"detections":[\x7b"bbox":"bad"\x7d]\x7d` produces zero overlay
rectangles, one logged warning, and the frame is still handed to the render
surface. -/
theorem C6_malformed_bbox_skipped (dets : List JVal)
    (h : ∀ d ∈ dets, detSafe d = true) :
    (processBatch dets =
        .done (dets.filterMap drawOfOpt)
          (dets.countP fun d => !(bboxWellFormed d)) ∧
      (dets.filterMap drawOfOpt).length =
        dets.countP (fun d => bboxWellFormed d)) ∧
    onFrameArrived (some badBboxMsg) =
      { draws := [], warns := 1, errorLogged := false, framePushed := true } :=
  ⟨processBatch_safe dets h, rfl⟩

/-- C6 witness: a batch holding the malformed entry and a well-formed one is
processed with one warning and one draw. -/
theorem C6_witness :
    (∀ d ∈ [badDet, cavityDet], detSafe d = true) ∧
    processBatch [badDet, cavityDet] =
      .done ([badDet, cavityDet].filterMap drawOfOpt)
        ([badDet, cavityDet].countP fun d => !(bboxWellFormed d)) := by
  have h : ∀ d ∈ [badDet, cavityDet], detSafe d = true := by decide
  exact ⟨h, (C6_malformed_bbox_skipped [badDet, cavityDet] h).1.1⟩

/-- C7: every detection whose bbox is a well-formed 4-element list and whose
class name is a string is drawn as exactly one box-plus-label command, whose
colour is red `(0, 0, 255)` exactly when the lowered class name contains
"cavity" and green `(0, 255, 0)` otherwise (and the two colours differ); the
concrete payload `\x7b"detections":[\x7b"bbox":[10,10,50,50],
"class_name":"Cavity","confidence":0.91\x7d]\x7d` yields exactly one overlay
rectangle, coloured red by the distinguished-category rule. -/
theorem C7_cavity_color_rule (fields : List (String × JVal)) (cn : String)
    (hcn : jGet fields "class_name" = some (.jstr cn))
    (hwf : bboxWellFormed (.jobj fields) = true) :
    (∃ dd, processDet (.jobj fields) = .ok (.draw dd) ∧
        dd.color = (if pyInStr "cavity" (pyLower cn) then bgrRed else bgrGreen) ∧
        dd.labelColor = dd.color ∧
        dd.labelName = cn) ∧
    bgrRed ≠ bgrGreen ∧
    onFrameArrived (some cavityMsg) =
      { draws := [cavityDraw], warns := 0, errorLogged := false,
        framePushed := true } ∧
    cavityDraw.color = bgrRed := by
  refine ⟨?_, by decide, rfl, rfl⟩
  cases hg : getBbox4 fields with
  | none => rw [bboxWellFormed_none fields hg] at hwf; exact absurd hwf (by simp)
  | some t =>
    obtain ⟨a, b, c, d⟩ := t
    rw [bboxWellFormed_some fields a b c d hg] at hwf
    simp only [Bool.and_eq_true] at hwf
    obtain ⟨⟨⟨ha, hb⟩, hc⟩, hd⟩ := hwf
    obtain ⟨x1, ha'⟩ := okB_ok ha
    obtain ⟨y1, hb'⟩ := okB_ok hb
    obtain ⟨x2, hc'⟩ := okB_ok hc
    obtain ⟨y2, hd'⟩ := okB_ok hd
    rw [processDet_wf fields a b c d hg x1 y1 x2 y2 ha' hb' hc' hd',
      mkDraw_str fields x1 y1 x2 y2 cn hcn]
    exact ⟨_, rfl, rfl, rfl, rfl⟩

/-- C7 witness: the concrete Cavity detection is drawn in red. -/
theorem C7_witness :
    jGet [("bbox", .jlist [.jint 10, .jint 10, .jint 50, .jint 50]),
          ("class_name", .jstr "Cavity"),
          ("confidence", .jnum (91 / 100))] "class_name" =
      some (.jstr "Cavity") ∧
    bboxWellFormed cavityDet = true ∧
    onFrameArrived (some cavityMsg) =
      { draws := [cavityDraw], warns := 0, errorLogged := false,
        framePushed := true } := by
  refine ⟨rfl, by decide, ?_⟩
  exact (C7_cavity_color_rule
    [("bbox", .jlist [.jint 10, .jint 10, .jint 50, .jint 50]),
     ("class_name", .jstr "Cavity"),
     ("confidence", .jnum (91 / 100))] "Cavity" rfl (by decide)).2.2.1

/-- C9: for positive source dimensions and a positive window, if the window
aspect exceeds the source aspect then the horizontal scale equals the ratio
of the aspects with the vertical scale 1, symmetrically a relatively taller
window clamps the vertical scale with the horizontal at 1, and a window
exactly twice as wide as the source aspect yields scales (1/2, 1). -/
theorem C9_aspect_ratio_scaling (win : WinSize) (s : RWState)
    (hw : 0 < s.m_width) (hh : 0 < s.m_height)
    (hW : 0 < win.winW) (hH : 0 < win.winH) :
    ((win.winW : ℚ) / (win.winH : ℚ) > (s.m_width : ℚ) / (s.m_height : ℚ) →
      (updateAspectScale win s).m_scaleX =
        ((s.m_width : ℚ) / (s.m_height : ℚ)) /
          ((win.winW : ℚ) / (win.winH : ℚ)) ∧
      (updateAspectScale win s).m_scaleY = 1) ∧
    ((win.winW : ℚ) / (win.winH : ℚ) < (s.m_width : ℚ) / (s.m_height : ℚ) →
      (updateAspectScale win s).m_scaleX = 1 ∧
      (updateAspectScale win s).m_scaleY =
        ((win.winW : ℚ) / (win.winH : ℚ)) /
          ((s.m_width : ℚ) / (s.m_height : ℚ))) ∧
    ((win.winW : ℚ) / (win.winH : ℚ) =
        2 * ((s.m_width : ℚ) / (s.m_height : ℚ)) →
      (updateAspectScale win s).m_scaleX = 1 / 2 ∧
      (updateAspectScale win s).m_scaleY = 1) := by
  have hguard : ¬(s.m_width ≤ 0 ∨ s.m_height ≤ 0) := by
    push_neg
    exact ⟨hw, hh⟩
  have hva : 0 < (s.m_width : ℚ) / (s.m_height : ℚ) := by
    apply div_pos <;> exact_mod_cast by assumption
  refine ⟨?_, ?_, ?_⟩
  · intro hgt
    unfold updateAspectScale
    rw [if_neg hguard, if_pos hgt]
    exact ⟨rfl, rfl⟩
  · intro hlt
    have hngt : ¬((win.winW : ℚ) / (win.winH : ℚ) >
        (s.m_width : ℚ) / (s.m_height : ℚ)) := not_lt.mpr (le_of_lt hlt)
    unfold updateAspectScale
    rw [if_neg hguard, if_neg hngt]
    exact ⟨rfl, rfl⟩
  · intro h2
    have hgt : (win.winW : ℚ) / (win.winH : ℚ) >
        (s.m_width : ℚ) / (s.m_height : ℚ) := by
      rw [h2]
      linarith
    unfold updateAspectScale
    rw [if_neg hguard, if_pos hgt]
    refine ⟨?_, rfl⟩
    have hne : (2 : ℚ) * ((s.m_width : ℚ) / (s.m_height : ℚ)) ≠ 0 :=
      ne_of_gt (by linarith)
    rw [h2, div_eq_iff hne]
    ring

/-- C9 witness: a 1280x480 window against a 640x480 source (window aspect
exactly twice the source aspect) yields horizontal scale 1/2 and vertical
scale 1. -/
theorem C9_witness :
    (0 : Int) < aspectState.m_width ∧ (0 : Int) < aspectState.m_height ∧
    (0 : Int) < aspectWin.winW ∧ (0 : Int) < aspectWin.winH ∧
    (aspectWin.winW : ℚ) / (aspectWin.winH : ℚ) =
      2 * ((aspectState.m_width : ℚ) / (aspectState.m_height : ℚ)) ∧
    (updateAspectScale aspectWin aspectState).m_scaleX = 1 / 2 ∧
    (updateAspectScale aspectWin aspectState).m_scaleY = 1 := by
  have h2 : (aspectWin.winW : ℚ) / (aspectWin.winH : ℚ) =
      2 * ((aspectState.m_width : ℚ) / (aspectState.m_height : ℚ)) := by
    show (1280 : ℚ) / 480 = 2 * ((640 : ℚ) / 480)
    norm_num
  refine ⟨by decide, by decide, by decide, by decide, h2, ?_⟩
  exact (C9_aspect_ratio_scaling aspectWin aspectState (by decide) (by decide)
    (by decide) (by decide)).2.2 h2

/-- C10: calling `setTextureData` with a non-positive width or height — any
buffer, any pixel format — returns immediately with the renderer state
completely unchanged: no texture is created or destroyed and the stored
dimensions, format and scale factors keep their previous values. -/
theorem C10_nonpositive_size_noop (win : WinSize) (s : RWState)
    (buffer : Buf) (width height : Int) (fmt : PixelFormat)
    (h : width ≤ 0 ∨ height ≤ 0) :
    setTextureData win s buffer width height fmt = .ok s := by
  unfold setTextureData
  rw [if_pos h]

/-- C10 witness: a zero-width upload of a valid BGR buffer leaves the
freshly initialised renderer untouched. -/
theorem C10_witness :
    ((0 : Int) ≤ 0 ∨ (480 : Int) ≤ 0) ∧
    setTextureData ⟨800, 600⟩ rwInit (.nd [480, 640, 3]) 0 480 .BGR24 =
      .ok rwInit :=
  ⟨Or.inl (by decide),
   C10_nonpositive_size_noop ⟨800, 600⟩ rwInit (.nd [480, 640, 3]) 0 480
     .BGR24 (Or.inl (by decide))⟩

end OralEndoscope
